import Mathlib

/-!
Verification of the coaches-data frontend client (`frontend/src/App.jsx`).

The repository ships two concatenated revisions of the `App` component in
`App.jsx`; where the two revisions differ (the export routine), both are
embedded, suffixed `_v1` (first copy) and `_v2` (second copy).  Shared parts
that are textually identical in both copies are embedded once.

The embedding models the client's React state as an explicit record
(`ClientState`), the HTTP requests issued by `startScraper` as a list of
`StartRequest` values, the status-poll tick handlers as pure state
transformers, and the Excel export as a pure function from the results list
to a workbook (a list of named sheets, each a matrix of cell strings).
-/

/-- The UI tab selector: `activeTab` is `'coaches'` or `'players'`. -/
inductive Tab where
  | coaches
  | players
deriving DecidableEq

/-- The `progress` object of a status snapshot
(`{current, total, current_club, status}`). -/
structure Progress where
  current : Int
  total : Int
  current_club : String
  status : String
deriving DecidableEq

/-- A status snapshot as stored by the client (`running` flag plus
`progress`). -/
structure Status where
  running : Bool
  progress : Progress
deriving DecidableEq

/-- The idle progress shape the client resets to:
`{current: 0, total: 0, current_club: '', status: 'idle'}`. -/
def idleProgress : Progress :=
  { current := 0, total := 0, current_club := "", status := "idle" }

/-- The idle status shape (`running: false` with `idleProgress`). -/
def idleStatus : Status :=
  { running := false, progress := idleProgress }

/-- One result record.  Records are flat maps of named fields to optional
strings; a missing JS field is `none`.  The field list is the union of the
fields the client reads from coach records and player records. -/
structure Row where
  league : Option String := none
  current_club : Option String := none
  manager : Option String := none
  manager_id : Option String := none
  date_of_birth : Option String := none
  preferred_formation : Option String := none
  history_club : Option String := none
  role : Option String := none
  appointed_date : Option String := none
  until_date : Option String := none
  days_in_charge : Option String := none
  matches' : Option String := none  -- source field `matches` (`matches` is reserved in Lean)
  wins : Option String := none
  draws : Option String := none
  losses : Option String := none
  players_used : Option String := none
  avg_goals_for : Option String := none
  avg_goals_against : Option String := none
  points_per_match : Option String := none
  player_name : Option String := none
  player_id : Option String := none
  jersey_number : Option String := none
  nationality : Option String := none
  caps : Option String := none
  goals : Option String := none
  position : Option String := none
  height : Option String := none
  foot : Option String := none
  current_market_value : Option String := none
deriving DecidableEq

/-- A record with every field missing (used as a concrete sample input). -/
def emptyRow : Row := {}

/-- JS `x || d` on an optional string field: a missing field (`undefined`)
and the empty string are falsy, so both fall back to the default. -/
def jsStr (v : Option String) (d : String) : String :=
  match v with
  | none => d
  | some s => if s = "" then d else s

/-- A league option as held in the `leagues` state (`id` may be absent,
`url` and `name` present). -/
structure League where
  id : Option String
  url : String
  name : String
deriving DecidableEq

/-- A club option as held in the `selectedClubs` state. -/
structure Club where
  url : String
  name : String
deriving DecidableEq

/-- The client component state (the `useState` fields of `App` that the
start / stop / reset / poll handlers read or write).  Defaults are the
initial values from the source. -/
structure ClientState where
  activeTab : Tab := Tab.coaches
  status : Status := idleStatus
  results : List Row := []
  playerStatus : Status := idleStatus
  playerResults : List Row := []
  error : Option String := none
  loading : Bool := false
  selectedContinent : String := ""
  leagues : List League := []
  selectedLeagues : List String := []
  clubs : List Club := []
  selectedClubs : List Club := []
  coachEntityType : String := ""
  coachEntityId : String := ""
  playerEntityType : String := ""
  playerEntityId : String := ""
  showAnimation : Bool := false
  expandedCoaches : List String := []
  expandedClubs : List String := []
deriving DecidableEq

/-! ## `startScraper` — requests issued to the backend -/

/-- One HTTP start request, one constructor per endpoint/payload shape the
client can post from `startScraper`. -/
inductive StartRequest where
  | startManager (manager_id : String)
  | startLeagueUrl (league_url : String)
  | startClub (club_url club_name : String)
  | startClubs (clubs : List (String × String))
  | startLeague (league_url league_name : String)
  | startLeagues (league_urls : List (String × String))
  | startContinent (continent : String)
  | startDefault
  | playerStartLeagueUrl (league_url : String)
  | playerStartClub (club_url club_name : String)
  | playerStartClubs (clubs : List (String × String))
  | playerStartLeague (league_url league_name : String)
  | playerStartLeagues (league_urls : List (String × String))
  | playerStartContinent (continent : String)
  | playerStartDefault
deriving DecidableEq

/-- Whether `pat` occurs as a prefix of `cs` (character-by-character). -/
def matchesAt : List Char → List Char → Bool
  | [], _ => true
  | _ :: _, [] => false
  | p :: ps, c :: cs => p = c && matchesAt ps cs

/-- The literal part of the regex `\/profil\/trainer\/(\d+)`. -/
def trainerPat : List Char := "/profil/trainer/".data

/-- First match of the regex `\/profil\/trainer\/(\d+)` in a character
list: the capture group (a maximal nonempty digit run following the
literal), scanning left to right. -/
def findTrainerMatch : List Char → Option (List Char)
  | [] => none
  | c :: rest =>
    if matchesAt trainerPat (c :: rest) then
      let ds := ((c :: rest).drop trainerPat.length).takeWhile Char.isDigit
      if ds.isEmpty then findTrainerMatch rest else some ds
    else findTrainerMatch rest

/-- `startScraper`'s manager-id extraction: trim the input, match it against
`\/profil\/trainer\/(\d+)`; on a match use the captured digits, otherwise
use the trimmed input itself. -/
def extractManagerId (s : String) : String :=
  let managerId := s.trim
  match findTrainerMatch managerId.data with
  | some ds => String.mk ds
  | none => managerId

/-- `selectedLeagues.map(id => leagues.find(l => l.id === id || l.url ===
id)).filter(Boolean)`: resolve the selected league ids against the loaded
`leagues` list, dropping unresolvable ids. -/
def resolvedLeagues (s : ClientState) : List League :=
  s.selectedLeagues.filterMap fun lid =>
    s.leagues.find? fun l => l.id == some lid || l.url == lid

/-- The clubs/leagues/continent fallthrough of the coaches branch of
`startScraper` (reached when no entity URL is active). -/
def coachSelectionRequests (s : ClientState) : List StartRequest :=
  match s.selectedClubs with
  | [club] => [.startClub club.url club.name]
  | _ :: _ :: _ => [.startClubs (s.selectedClubs.map fun c => (c.url, c.name))]
  | [] =>
    if s.selectedLeagues ≠ [] then
      match resolvedLeagues s with
      | [l] => [.startLeague l.url l.name]
      | _ :: _ :: _ =>
        [.startLeagues ((resolvedLeagues s).map fun l => (l.url, l.name))]
      | [] => []
    else if s.selectedContinent ≠ "" then [.startContinent s.selectedContinent]
    else [.startDefault]

/-- The clubs/leagues/continent fallthrough of the players branch of
`startScraper`. -/
def playerSelectionRequests (s : ClientState) : List StartRequest :=
  match s.selectedClubs with
  | [club] => [.playerStartClub club.url club.name]
  | _ :: _ :: _ =>
    [.playerStartClubs (s.selectedClubs.map fun c => (c.url, c.name))]
  | [] =>
    if s.selectedLeagues ≠ [] then
      match resolvedLeagues s with
      | [l] => [.playerStartLeague l.url l.name]
      | _ :: _ :: _ =>
        [.playerStartLeagues ((resolvedLeagues s).map fun l => (l.url, l.name))]
      | [] => []
    else if s.selectedContinent ≠ "" then
      [.playerStartContinent s.selectedContinent]
    else [.playerStartDefault]

/-- The coaches branch of `startScraper`: the entity-URL check comes first
(with an early return for the `manager` and `league` entity types), and an
unrecognised entity type falls through to the selection logic. -/
def coachRequests (s : ClientState) : List StartRequest :=
  if s.coachEntityType ≠ "" ∧ s.coachEntityId ≠ "" ∧ s.coachEntityId.trim ≠ "" then
    if s.coachEntityType = "manager" then
      [.startManager (extractManagerId s.coachEntityId)]
    else if s.coachEntityType = "league" then
      [.startLeagueUrl s.coachEntityId.trim]
    else coachSelectionRequests s
  else coachSelectionRequests s

/-- The players branch of `startScraper` (entity types `league` and `club`;
the club-from-URL request carries the placeholder name `'Club from URL'`). -/
def playerRequests (s : ClientState) : List StartRequest :=
  if s.playerEntityType ≠ "" ∧ s.playerEntityId ≠ "" ∧ s.playerEntityId.trim ≠ "" then
    if s.playerEntityType = "league" then
      [.playerStartLeagueUrl s.playerEntityId.trim]
    else if s.playerEntityType = "club" then
      [.playerStartClub s.playerEntityId.trim "Club from URL"]
    else playerSelectionRequests s
  else playerSelectionRequests s

/-- The complete list of start requests one invocation of `startScraper`
posts, in order. -/
def startScraperRequests (s : ClientState) : List StartRequest :=
  match s.activeTab with
  | Tab.coaches => coachRequests s
  | Tab.players => playerRequests s

/-- The synchronous state update `startScraper` performs before posting the
start request: set `loading`, clear `error`, clear the coach `results`
(unconditionally — on both tabs), and show the start animation. -/
def startScraperState (s : ClientState) : ClientState :=
  { s with loading := true, error := none, results := [], showAnimation := true }

/-! ### Spec-side priority description of `startScraper`

`priorityRequest` restates the request selection as the spec's fixed
priority chain (entity URL, then clubs, then leagues, then continent, then
the default full run), to be compared with `startScraperRequests`. -/

/-- Whether the entity-URL branch fires: entity type chosen, entity id
non-blank, and the type is one the active tab's branch recognises. -/
def entityActiveB (s : ClientState) : Bool :=
  match s.activeTab with
  | Tab.coaches =>
    s.coachEntityType ≠ "" && s.coachEntityId ≠ "" && s.coachEntityId.trim ≠ ""
      && (s.coachEntityType = "manager" || s.coachEntityType = "league")
  | Tab.players =>
    s.playerEntityType ≠ "" && s.playerEntityId ≠ "" && s.playerEntityId.trim ≠ ""
      && (s.playerEntityType = "league" || s.playerEntityType = "club")

/-- The request the entity-URL branch posts. -/
def entityRequest (s : ClientState) : StartRequest :=
  match s.activeTab with
  | Tab.coaches =>
    if s.coachEntityType = "manager" then
      .startManager (extractManagerId s.coachEntityId)
    else .startLeagueUrl s.coachEntityId.trim
  | Tab.players =>
    if s.playerEntityType = "league" then
      .playerStartLeagueUrl s.playerEntityId.trim
    else .playerStartClub s.playerEntityId.trim "Club from URL"

/-- The request the selected-clubs branch posts (single club vs. club
list). -/
def clubsRequest (s : ClientState) : StartRequest :=
  match s.activeTab, s.selectedClubs with
  | Tab.coaches, [club] => .startClub club.url club.name
  | Tab.coaches, _ => .startClubs (s.selectedClubs.map fun c => (c.url, c.name))
  | Tab.players, [club] => .playerStartClub club.url club.name
  | Tab.players, _ =>
    .playerStartClubs (s.selectedClubs.map fun c => (c.url, c.name))

/-- The request the selected-leagues branch posts (single league vs. league
list), defined from the resolved league objects. -/
def leaguesRequest (s : ClientState) : StartRequest :=
  match s.activeTab, resolvedLeagues s with
  | Tab.coaches, [l] => .startLeague l.url l.name
  | Tab.coaches, _ =>
    .startLeagues ((resolvedLeagues s).map fun l => (l.url, l.name))
  | Tab.players, [l] => .playerStartLeague l.url l.name
  | Tab.players, _ =>
    .playerStartLeagues ((resolvedLeagues s).map fun l => (l.url, l.name))

/-- The request the continent branch posts. -/
def continentRequest (s : ClientState) : StartRequest :=
  match s.activeTab with
  | Tab.coaches => .startContinent s.selectedContinent
  | Tab.players => .playerStartContinent s.selectedContinent

/-- The request the final fallback posts (start with no payload). -/
def defaultRequest (s : ClientState) : StartRequest :=
  match s.activeTab with
  | Tab.coaches => .startDefault
  | Tab.players => .playerStartDefault

/-- The fixed-priority description of `startScraper`'s request selection,
following the spec's order: entity URL, then clubs, then leagues, then
continent, then the default full run.  A selected-leagues list none of
whose entries resolves issues no request at all. -/
def priorityRequest (s : ClientState) : List StartRequest :=
  if entityActiveB s then [entityRequest s]
  else if s.selectedClubs ≠ [] then [clubsRequest s]
  else if s.selectedLeagues ≠ [] then
    if resolvedLeagues s ≠ [] then [leaguesRequest s] else []
  else if s.selectedContinent ≠ "" then [continentRequest s]
  else [defaultRequest s]

/-- The no-request corner: no entity URL active, no clubs selected, leagues
selected but none of them resolves against the loaded `leagues` list. -/
def noStartB (s : ClientState) : Bool :=
  !entityActiveB s && s.selectedClubs.isEmpty && !s.selectedLeagues.isEmpty
    && (resolvedLeagues s).isEmpty

/-! ## `stopScraper` and `resetScraper` -/

/-- The client-state effect of one `stopScraper` invocation.  The handler
only posts the category's stop endpoint; the sole state write is the error
message in the catch branch (`outcome = some e` models a failed request). -/
def stopScraperState (s : ClientState) (outcome : Option String) : ClientState :=
  match outcome with
  | none => s
  | some e => { s with error := some e }

/-- The client-state effect of one `resetScraper` invocation.  On a failed
reset request (`outcome = some e`) only the error message is written; on
success the active category's results and status are cleared to the idle
shape and the shared selection state is cleared. -/
def resetScraperState (s : ClientState) (outcome : Option String) : ClientState :=
  match outcome with
  | some e => { s with error := some e }
  | none =>
    let s1 :=
      match s.activeTab with
      | Tab.coaches => { s with results := [], status := idleStatus }
      | Tab.players => { s with playerResults := [], playerStatus := idleStatus }
    { s1 with
      error := none, loading := false, showAnimation := false,
      selectedContinent := "", selectedLeagues := [], selectedClubs := [],
      coachEntityType := "", coachEntityId := "",
      playerEntityType := "", playerEntityId := "",
      leagues := [], clubs := [],
      expandedCoaches := [], expandedClubs := [] }

/-! ## Progress rendering -/

/-- The rendered progress percentage:
`total > 0 ? Math.round((current / total) * 100) : 0`.
`Math.round` on a non-negative value is round-half-up, which is `round` on
`ℚ`. -/
def progressPercentage (st : Status) : Int :=
  if st.progress.total > 0 then
    round (((st.progress.current : ℚ) / (st.progress.total : ℚ)) * 100)
  else 0

/-! ## Status polling -/

/-- The body of a status response (`GET /status` or `GET /player-status`):
the fields the poll handlers read.  `results` is `none` when the response
carries no `results` field. -/
structure StatusResponse where
  running : Bool
  progress : Progress
  results : Option (List Row)
deriving DecidableEq

/-- The job category a poll effect serves. -/
inductive PollCategory where
  | coaches
  | players
deriving DecidableEq

/-- One poll tick: store the fetched snapshot with `setStatus` /
`setPlayerStatus`, then replace the displayed results only when the fetched
`results` array exists and is non-empty.  `resp = none` models a failed
fetch, which only logs and leaves the state unchanged. -/
def pollTick (cat : PollCategory) (s : ClientState) (resp : Option StatusResponse) :
    ClientState :=
  match resp with
  | none => s
  | some d =>
    match cat with
    | PollCategory.coaches =>
      let s1 := { s with status := { running := d.running, progress := d.progress } }
      match d.results with
      | some (r :: rs) => { s1 with results := r :: rs }
      | _ => s1
    | PollCategory.players =>
      let s1 :=
        { s with playerStatus := { running := d.running, progress := d.progress } }
      match d.results with
      | some (r :: rs) => { s1 with playerResults := r :: rs }
      | _ => s1

/-- A periodic poll as installed by `setInterval`: its period in
milliseconds and the category whose status endpoint each tick fetches. -/
structure PollEffect where
  period_ms : Nat
  category : PollCategory
deriving DecidableEq

/-- The coach status poll: `setInterval(..., 1000)` fetching `/status`. -/
def coachStatusPoll : PollEffect := { period_ms := 1000, category := .coaches }

/-- The player status poll: `setInterval(..., 1000)` fetching
`/player-status`. -/
def playerStatusPoll : PollEffect := { period_ms := 1000, category := .players }

/-- The browser's interval table: a fresh-id counter and the list of active
intervals. -/
structure TimerStore where
  nextId : Nat
  active : List (Nat × PollEffect)
deriving DecidableEq

/-- `setInterval`: register a periodic effect, returning its timer id. -/
def setIntervalT (ts : TimerStore) (e : PollEffect) : Nat × TimerStore :=
  (ts.nextId, { nextId := ts.nextId + 1, active := ts.active ++ [(ts.nextId, e)] })

/-- `clearInterval`: drop the interval with the given id. -/
def clearIntervalT (ts : TimerStore) (id : Nat) : TimerStore :=
  { nextId := ts.nextId, active := ts.active.filter fun p => p.1 ≠ id }

/-- Mounting `App` runs the two status `useEffect`s (each with an empty
dependency list, hence once): each installs one interval and remembers its
id for cleanup. -/
def mountStatusPolls (ts : TimerStore) : (Nat × Nat) × TimerStore :=
  let c := setIntervalT ts coachStatusPoll
  let p := setIntervalT c.2 playerStatusPoll
  ((c.1, p.1), p.2)

/-- Unmounting runs both effect cleanups, each of which is
`() => clearInterval(interval)` on its own remembered id. -/
def unmountStatusPolls (ids : Nat × Nat) (ts : TimerStore) : TimerStore :=
  clearIntervalT (clearIntervalT ts ids.1) ids.2

/-! ## Excel export -/

/-- The characters `\ / ? * [ ] :` stripped from worksheet names
(the regex `[\\\/\?\*\[\]:]`). -/
def isBannedSheetChar (c : Char) : Bool :=
  c = '\\' || c = '/' || c = '?' || c = '*' || c = '[' || c = ']' || c = ':'

/-- One step of `.replace(/[\\\/\?\*\[\]:]/g, '_')`. -/
def sanitizeChar (c : Char) : Char :=
  if isBannedSheetChar c then '_' else c

/-- Worksheet-name sanitization (identical in both copies and both tabs):
replace each banned character by `'_'`, truncate to 31 characters
(`.substring(0, 31)`), and fall back to `'Sheet'` when the result is
empty. -/
def sanitizeSheetName (label : String) : String :=
  let t := String.mk ((label.data.map sanitizeChar).take 31)
  if t = "" then "Sheet" else t

/-- The coach export header row (identical in both copies). -/
def coachHeaders : List String :=
  ["Current Club",
   "Manager", "Manager ID", "Date of Birth", "Preferred Formation",
   "History Club", "Role",
   "Appointed Date", "Until Date",
   "Days in Charge",
   "Matches", "Wins", "Draws", "Losses", "Players Used",
   "Avg Goals For", "Avg Goals Against", "Points Per Match"]

/-- The player export header row (identical in both copies). -/
def playerHeaders : List String :=
  ["Current Club",
   "Player Name", "Player ID", "Jersey Number", "Nationality",
   "Date of Birth", "Caps", "Goals", "Position",
   "Height", "Foot", "Current Market Value"]

/-- The exported cells of one coach record (each field `row.x || ''`;
identical in both copies). -/
def coachRowCells (r : Row) : List String :=
  [jsStr r.current_club "",
   jsStr r.manager "",
   jsStr r.manager_id "",
   jsStr r.date_of_birth "",
   jsStr r.preferred_formation "",
   jsStr r.history_club "",
   jsStr r.role "",
   jsStr r.appointed_date "",
   jsStr r.until_date "",
   jsStr r.days_in_charge "",
   jsStr r.matches' "",
   jsStr r.wins "",
   jsStr r.draws "",
   jsStr r.losses "",
   jsStr r.players_used "",
   jsStr r.avg_goals_for "",
   jsStr r.avg_goals_against "",
   jsStr r.points_per_match ""]

/-- The exported cells of one player record (identical in both copies). -/
def playerRowCells (r : Row) : List String :=
  [jsStr r.current_club "",
   jsStr r.player_name "",
   jsStr r.player_id "",
   jsStr r.jersey_number "",
   jsStr r.nationality "",
   jsStr r.date_of_birth "",
   jsStr r.caps "",
   jsStr r.goals "",
   jsStr r.position "",
   jsStr r.height "",
   jsStr r.foot "",
   jsStr r.current_market_value ""]

/-- First copy, coaches: group key `row.league || 'Unknown League'`. -/
def coachGroupKey_v1 (r : Row) : String := jsStr r.league "Unknown League"

/-- Second copy, coaches: group key `row.league || 'Unknown League'`. -/
def coachGroupKey_v2 (r : Row) : String := jsStr r.league "Unknown League"

/-- First copy, players: group key `row.current_club || 'Unknown Club'`. -/
def playerGroupKey_v1 (r : Row) : String := jsStr r.current_club "Unknown Club"

/-- Second copy, players: group key `row.league || 'Unknown League'`. -/
def playerGroupKey_v2 (r : Row) : String := jsStr r.league "Unknown League"

/-- One step of the grouping `forEach`: append the record to its key's
bucket, creating the bucket on first sight of the key. -/
def insertRow (acc : List (String × List Row)) (k : String) (r : Row) :
    List (String × List Row) :=
  if acc.any (fun p => p.1 == k) then
    acc.map fun p => if p.1 == k then (p.1, p.2 ++ [r]) else p
  else acc ++ [(k, [r])]

/-- The grouping loop (`resultsByLeague` / `resultsByClub`): an
insertion-ordered map from group key to the records carrying that key. -/
def groupByKey (key : Row → String) (rows : List Row) : List (String × List Row) :=
  rows.foldl (fun acc r => insertRow acc (key r) r) []

/-- A workbook: the appended sheets in order, each a sanitized name plus
its cell matrix (header row followed by one row per record). -/
def buildSheets (key : Row → String) (headers : List String)
    (cells : Row → List String) (rows : List Row) :
    List (String × List (List String)) :=
  (groupByKey key rows).map fun p =>
    (sanitizeSheetName p.1, headers :: p.2.map cells)

/-- First copy of `exportToExcel`: `none` models the `alert`/early-return on
an empty `dataToExport`; coaches group by league, players group by current
club. -/
def exportToExcel_v1 (tab : Tab) (results playerResults : List Row) :
    Option (List (String × List (List String))) :=
  let dataToExport := match tab with
    | Tab.coaches => results
    | Tab.players => playerResults
  if dataToExport.isEmpty then none
  else some (match tab with
    | Tab.coaches => buildSheets coachGroupKey_v1 coachHeaders coachRowCells dataToExport
    | Tab.players => buildSheets playerGroupKey_v1 playerHeaders playerRowCells dataToExport)

/-- Second copy of `exportToExcel`: identical to the first except that the
players branch groups by `row.league || 'Unknown League'`. -/
def exportToExcel_v2 (tab : Tab) (results playerResults : List Row) :
    Option (List (String × List (List String))) :=
  let dataToExport := match tab with
    | Tab.coaches => results
    | Tab.players => playerResults
  if dataToExport.isEmpty then none
  else some (match tab with
    | Tab.coaches => buildSheets coachGroupKey_v2 coachHeaders coachRowCells dataToExport
    | Tab.players => buildSheets playerGroupKey_v2 playerHeaders playerRowCells dataToExport)

/-! ## Concrete sample states -/

/-- A client state on the players tab with displayed results in both
categories (exercises the job-start clearing behaviour). -/
def startPlayersState : ClientState :=
  { activeTab := Tab.players, results := [emptyRow], playerResults := [emptyRow] }

/-- A client state whose only selection is a league id that does not
resolve against the (empty) loaded `leagues` list. -/
def unresolvableLeagueState : ClientState :=
  { selectedLeagues := ["x"] }

/-- A poll-handler scenario: two records displayed, next snapshot carries
one. -/
def twoRowState : ClientState :=
  { results := [emptyRow, emptyRow], playerResults := [emptyRow, emptyRow] }

/-- A status response whose `results` array has exactly one record. -/
def oneRowResponse : StatusResponse :=
  { running := true, progress := idleProgress, results := some [emptyRow] }

/-- A record whose current club and league disagree (separates the two
player-export grouping keys). -/
def splitKeyRow : Row :=
  { current_club := some "Alpha FC", league := some "Beta League" }

/-! ## Claims -/

/-- C5: stop is idempotent on client state.  `stopScraperState` run twice
under the same request outcome equals one run, and an invocation (running
or not — the handler never reads `running`) changes no client field other
than possibly the error message. -/
theorem stopScraper_idempotent (s : ClientState) (o : Option String) :
    stopScraperState (stopScraperState s o) o = stopScraperState s o
    ∧ stopScraperState s o = { s with error := (stopScraperState s o).error } := by
  cases o <;> simp [stopScraperState]

/-- C2 (failing-input evaluation): invoking `startScraper` on the players
tab leaves the players tab's displayed results untouched and instead clears
the coaches results — the active tab's results are not reset. -/
theorem startScraper_wrongTabClear :
    startPlayersState.activeTab = Tab.players
    ∧ (startScraperState startPlayersState).playerResults = [emptyRow]
    ∧ startPlayersState.playerResults = [emptyRow]
    ∧ (startScraperState startPlayersState).results = []
    ∧ startPlayersState.results = [emptyRow] :=
  ⟨rfl, rfl, rfl, rfl, rfl⟩

/-- C4: resetting one category leaves the other category's results and
status unchanged (under any request outcome), and a successful reset clears
the active category's results and returns its progress to the idle shape
`{running: false, current: 0, total: 0, current_club: '', status: 'idle'}`. -/
theorem resetScraper_frame (s : ClientState) (o : Option String) :
    ((resetScraperState { s with activeTab := Tab.coaches } o).playerResults
        = s.playerResults
      ∧ (resetScraperState { s with activeTab := Tab.coaches } o).playerStatus
        = s.playerStatus)
    ∧ ((resetScraperState { s with activeTab := Tab.players } o).results = s.results
      ∧ (resetScraperState { s with activeTab := Tab.players } o).status = s.status)
    ∧ ((resetScraperState { s with activeTab := Tab.coaches } none).results = []
      ∧ (resetScraperState { s with activeTab := Tab.coaches } none).status
        = idleStatus)
    ∧ ((resetScraperState { s with activeTab := Tab.players } none).playerResults = []
      ∧ (resetScraperState { s with activeTab := Tab.players } none).playerStatus
        = idleStatus) := by
  cases o <;> simp [resetScraperState]

/-- C8 (counterexample): a non-empty fetched snapshot replaces the
displayed results wholesale, so the displayed result count can decrease
across polls — here from 2 to 1. -/
theorem pollTick_count_decreases :
    (pollTick PollCategory.coaches twoRowState (some oneRowResponse)).results.length
      < twoRowState.results.length := by
  decide

/-- C8 (amended): a poll whose snapshot carries no results (absent field,
empty array, or failed fetch) leaves the displayed results of both
categories intact; a snapshot with a non-empty results array replaces the
displayed results with the fetched array (which may be shorter). -/
theorem pollTick_results (s : ClientState) (d : StatusResponse) (r : Row)
    (rs : List Row) :
    (pollTick PollCategory.coaches s (some { d with results := none })).results
      = s.results
    ∧ (pollTick PollCategory.coaches s (some { d with results := some [] })).results
      = s.results
    ∧ (pollTick PollCategory.coaches s
        (some { d with results := some (r :: rs) })).results = r :: rs
    ∧ (pollTick PollCategory.players s
        (some { d with results := none })).playerResults = s.playerResults
    ∧ (pollTick PollCategory.players s
        (some { d with results := some [] })).playerResults = s.playerResults
    ∧ (pollTick PollCategory.players s
        (some { d with results := some (r :: rs) })).playerResults = r :: rs
    ∧ pollTick PollCategory.coaches s none = s
    ∧ pollTick PollCategory.players s none = s :=
  ⟨rfl, rfl, rfl, rfl, rfl, rfl, rfl, rfl⟩

/-- C10 (counterexample): on the players tab the two copies of
`exportToExcel` produce different workbooks for the same results list — the
first groups by the record's current club, the second by its league. -/
theorem exportVersions_differ :
    exportToExcel_v1 Tab.players [] [splitKeyRow]
      ≠ exportToExcel_v2 Tab.players [] [splitKeyRow] := by
  decide

/-- C10 (amended): the two copies of `exportToExcel` agree on the coaches
tab (same grouping, sheet names, and cells); on the players tab both build
sheets the same way but from different grouping keys — the first copy keys
by `current_club` (fallback `'Unknown Club'`), the second by `league`
(fallback `'Unknown League'`). -/
theorem exportVersions_equiv (results playerResults : List Row) (r : Row) :
    exportToExcel_v1 Tab.coaches results playerResults
      = exportToExcel_v2 Tab.coaches results playerResults
    ∧ exportToExcel_v1 Tab.players results playerResults
      = (if playerResults.isEmpty then none
         else some (buildSheets playerGroupKey_v1 playerHeaders playerRowCells
           playerResults))
    ∧ exportToExcel_v2 Tab.players results playerResults
      = (if playerResults.isEmpty then none
         else some (buildSheets playerGroupKey_v2 playerHeaders playerRowCells
           playerResults))
    ∧ playerGroupKey_v1 r = jsStr r.current_club "Unknown Club"
    ∧ playerGroupKey_v2 r = jsStr r.league "Unknown League" := by
  refine ⟨rfl, ?_, ?_, rfl, rfl⟩ <;> by_cases h : playerResults.isEmpty <;>
    simp [exportToExcel_v1, exportToExcel_v2, h]

/-- C6: the rendered progress percentage is division-safe and bounded: a
zero total renders 0 without dividing, and whenever
`0 <= current <= total` the percentage lies in `[0, 100]`. -/
theorem progressPercentage_bounds (st : Status) :
    (st.progress.total = 0 → progressPercentage st = 0)
    ∧ (0 ≤ st.progress.current → st.progress.current ≤ st.progress.total →
        0 ≤ progressPercentage st ∧ progressPercentage st ≤ 100) := by
  constructor
  · intro h
    simp [progressPercentage, h]
  · intro h1 h2
    by_cases ht : st.progress.total > 0
    · have hcq : (0 : ℚ) ≤ (st.progress.current : ℚ) := by exact_mod_cast h1
      have htq : (0 : ℚ) < (st.progress.total : ℚ) := by exact_mod_cast ht
      have hdiv1 : ((st.progress.current : ℚ) / (st.progress.total : ℚ)) ≤ 1 := by
        rw [div_le_one htq]
        exact_mod_cast h2
      have hx0 : (0 : ℚ) ≤ ((st.progress.current : ℚ) / (st.progress.total : ℚ)) * 100 := by
        positivity
      have hx100 : ((st.progress.current : ℚ) / (st.progress.total : ℚ)) * 100 ≤ 100 := by
        nlinarith
      have hpct : progressPercentage st
          = round (((st.progress.current : ℚ) / (st.progress.total : ℚ)) * 100) := by
        simp [progressPercentage, ht]
      constructor
      · rw [hpct, round_eq]
        have hfl : ⌊(0 : ℚ) + 1 / 2⌋ = (0 : ℤ) := by
          rw [Int.floor_eq_iff] ; norm_num
        rw [← hfl]
        exact Int.floor_mono (by linarith)
      · rw [hpct, round_eq]
        have hfl : ⌊(100 : ℚ) + 1 / 2⌋ = 100 := by
          rw [Int.floor_eq_iff] ; norm_num
        calc ⌊((st.progress.current : ℚ) / (st.progress.total : ℚ)) * 100 + 1 / 2⌋
            ≤ ⌊(100 : ℚ) + 1 / 2⌋ := Int.floor_mono (by linarith)
          _ = 100 := hfl
    · have : progressPercentage st = 0 := by simp [progressPercentage, ht]
      rw [this]
      exact ⟨le_refl 0, by norm_num⟩

/-- C6 (witness): the bounds instantiated at the idle snapshot. -/
theorem progressPercentage_bounds_witness :
    progressPercentage idleStatus = 0
    ∧ (0 ≤ progressPercentage idleStatus ∧ progressPercentage idleStatus ≤ 100) :=
  ⟨(progressPercentage_bounds idleStatus).1 rfl,
   (progressPercentage_bounds idleStatus).2 (by decide) (by decide)⟩

/-- C9: every worksheet name produced by the export sanitization is valid
for Excel: non-empty, at most 31 characters, free of `\ / ? * [ ] :`, and
an empty sanitized label falls back to `'Sheet'`.  (Both copies of
`exportToExcel` name every sheet via `sanitizeSheetName` — see
`buildSheets`.) -/
theorem sheetName_valid (label : String) (c : Char)
    (hc : c ∈ (sanitizeSheetName label).data) :
    sanitizeSheetName label ≠ ""
    ∧ (sanitizeSheetName label).length ≤ 31
    ∧ isBannedSheetChar c = false
    ∧ ((label.data.map sanitizeChar).take 31 = [] →
        sanitizeSheetName label = "Sheet") := by
  unfold sanitizeSheetName at *
  by_cases h : String.mk ((label.data.map sanitizeChar).take 31) = ""
  · rw [if_pos h] at hc ⊢
    refine ⟨by decide, by decide, ?_, fun _ => rfl⟩
    have : c ∈ "Sheet".data := hc
    simp only [show "Sheet".data = ['S', 'h', 'e', 'e', 't'] from rfl,
      List.mem_cons, List.not_mem_nil, or_false] at this
    rcases this with rfl | rfl | rfl | rfl | rfl <;> decide
  · rw [if_neg h] at hc ⊢
    refine ⟨h, ?_, ?_, ?_⟩
    · show ((label.data.map sanitizeChar).take 31).length ≤ 31
      rw [List.length_take]
      exact min_le_left _ _
    · have hc2 : c ∈ label.data.map sanitizeChar := List.take_subset _ _ hc
      obtain ⟨a, _, rfl⟩ := List.mem_map.mp hc2
      unfold sanitizeChar
      by_cases hb : isBannedSheetChar a = true
      · rw [if_pos hb]; decide
      · rw [if_neg hb]; simpa using hb
    · intro h0
      exfalso
      rw [h0] at h
      exact h (by decide)

/-- C9 (witness): the sanitizer instantiated at the empty label, which
falls back to `'Sheet'`. -/
theorem sheetName_valid_witness :
    sanitizeSheetName "" ≠ ""
    ∧ (sanitizeSheetName "").length ≤ 31
    ∧ isBannedSheetChar 'S' = false
    ∧ ((("" : String).data.map sanitizeChar).take 31 = [] →
        sanitizeSheetName "" = "Sheet") :=
  sheetName_valid "" 'S' (by decide)

/-- C7: on mount the client installs exactly one periodic status poll per
job category, each with a constant 1000 ms period; a tick stores the
fetched category's snapshot (rendering then shows the incremental
results — see `pollTick`'s results rule); on unmount each effect's cleanup
clears exactly the interval it installed, restoring the prior timer set. -/
theorem statusPolls (ts : TimerStore)
    (hfresh : ∀ p ∈ ts.active, p.1 < ts.nextId)
    (s : ClientState) (d : StatusResponse) :
    (mountStatusPolls ts).2.active.map Prod.snd
      = ts.active.map Prod.snd ++ [coachStatusPoll, playerStatusPoll]
    ∧ coachStatusPoll.period_ms = 1000
    ∧ playerStatusPoll.period_ms = 1000
    ∧ coachStatusPoll.category ≠ playerStatusPoll.category
    ∧ (unmountStatusPolls (mountStatusPolls ts).1 (mountStatusPolls ts).2).active
      = ts.active
    ∧ (pollTick PollCategory.coaches s (some d)).status
      = { running := d.running, progress := d.progress }
    ∧ (pollTick PollCategory.players s (some d)).playerStatus
      = { running := d.running, progress := d.progress } := by
  refine ⟨?_, rfl, rfl, by decide, ?_, ?_, ?_⟩
  · simp [mountStatusPolls, setIntervalT]
  · have h1 : ts.active.filter (fun p => p.1 ≠ ts.nextId) = ts.active := by
      apply List.filter_eq_self.mpr
      intro a ha
      have := hfresh a ha
      simp only [ne_eq, decide_eq_true_eq]
      omega
    have h2 : ts.active.filter (fun p => p.1 ≠ ts.nextId + 1) = ts.active := by
      apply List.filter_eq_self.mpr
      intro a ha
      have := hfresh a ha
      simp only [ne_eq, decide_eq_true_eq]
      omega
    simp only [unmountStatusPolls, mountStatusPolls, setIntervalT, clearIntervalT,
      List.filter_append, h1, h2]
    simp [List.filter_cons, Nat.succ_ne_self]
  · cases hd : d.results with
    | none => simp [pollTick, hd]
    | some l => cases l <;> simp [pollTick, hd]
  · cases hd : d.results with
    | none => simp [pollTick, hd]
    | some l => cases l <;> simp [pollTick, hd]

/-- C7 (witness): the polling contract instantiated at an empty timer
store, the initial client state, and an idle snapshot. -/
theorem statusPolls_witness :
    (mountStatusPolls ⟨0, []⟩).2.active.map Prod.snd
      = ([] : List (Nat × PollEffect)).map Prod.snd
        ++ [coachStatusPoll, playerStatusPoll]
    ∧ coachStatusPoll.period_ms = 1000
    ∧ playerStatusPoll.period_ms = 1000
    ∧ coachStatusPoll.category ≠ playerStatusPoll.category
    ∧ (unmountStatusPolls (mountStatusPolls ⟨0, []⟩).1
        (mountStatusPolls ⟨0, []⟩).2).active = []
    ∧ (pollTick PollCategory.coaches {} (some ⟨false, idleProgress, none⟩)).status
      = { running := false, progress := idleProgress }
    ∧ (pollTick PollCategory.players {} (some ⟨false, idleProgress, none⟩)).playerStatus
      = { running := false, progress := idleProgress } :=
  statusPolls ⟨0, []⟩ (by simp) {} ⟨false, idleProgress, none⟩

/-! ### Grouping-loop invariant -/

/-- Keys are unchanged when the key is already present. -/
lemma insertRow_keys_mem (acc : List (String × List Row)) (k : String) (r : Row)
    (h : acc.any (fun p => p.1 == k) = true) :
    (insertRow acc k r).map Prod.fst = acc.map Prod.fst := by
  unfold insertRow
  rw [if_pos h, List.map_map]
  have hf : (Prod.fst ∘ fun p : String × List Row =>
      if p.1 == k then (p.1, p.2 ++ [r]) else p) = Prod.fst := by
    funext p
    simp only [Function.comp_apply]
    split
    · rfl
    · rfl
  rw [hf]

/-- A fresh key is appended at the end of the key list. -/
lemma insertRow_keys_new (acc : List (String × List Row)) (k : String) (r : Row)
    (h : acc.any (fun p => p.1 == k) = false) :
    (insertRow acc k r).map Prod.fst = acc.map Prod.fst ++ [k] := by
  unfold insertRow
  rw [if_neg (by simp [h]), List.map_append]
  simp

/-- The grouping object holds a key iff some bucket carries it. -/
lemma any_key_iff (acc : List (String × List Row)) (k : String) :
    acc.any (fun p => p.1 == k) = true ↔ k ∈ acc.map Prod.fst := by
  simp only [List.any_eq_true, List.mem_map, beq_iff_eq]

/-- Invariant of the grouping `forEach` after processing the records in
`done`: bucket keys are pairwise distinct, each bucket holds exactly the
processed records carrying its key in their original order, and every
processed record's key has a bucket. -/
def GroupInv (key : Row → String) (done : List Row)
    (acc : List (String × List Row)) : Prop :=
  (acc.map Prod.fst).Nodup
  ∧ (∀ p ∈ acc, p.2 = done.filter fun q => key q == p.1)
  ∧ (∀ q ∈ done, key q ∈ acc.map Prod.fst)

/-- One grouping step preserves the invariant. -/
lemma insertRow_inv (key : Row → String) (done : List Row)
    (acc : List (String × List Row)) (r : Row) (h : GroupInv key done acc) :
    GroupInv key (done ++ [r]) (insertRow acc (key r) r) := by
  obtain ⟨hnd, hgrp, hcov⟩ := h
  by_cases hany : acc.any (fun p => p.1 == key r) = true
  · refine ⟨?_, ?_, ?_⟩
    · rw [insertRow_keys_mem acc (key r) r hany]
      exact hnd
    · intro p hp
      unfold insertRow at hp
      rw [if_pos hany] at hp
      obtain ⟨p', hp', hpeq⟩ := List.mem_map.mp hp
      by_cases hk : (p'.1 == key r) = true
      · rw [if_pos hk] at hpeq
        subst hpeq
        have hkey : (key r == p'.1) = true := by
          rw [beq_iff_eq] at hk ⊢
          exact hk.symm
        rw [List.filter_append]
        simp only [List.filter_cons, List.filter_nil]
        rw [show ((p'.1, p'.2 ++ [r]) : String × List Row).1 = p'.1 from rfl, hkey]
        rw [← hgrp p' hp']
        simp
      · rw [if_neg hk] at hpeq
        subst hpeq
        have hkey : (key r == p'.1) = false := by
          rw [beq_eq_false_iff_ne]
          intro heq
          rw [Bool.not_eq_true, beq_eq_false_iff_ne] at hk
          exact hk heq.symm
        rw [List.filter_append]
        simp only [List.filter_cons, List.filter_nil, hkey]
        rw [← hgrp p' hp']
        simp
    · intro q hq
      rw [insertRow_keys_mem acc (key r) r hany]
      rcases List.mem_append.mp hq with hq1 | hq2
      · exact hcov q hq1
      · have hqr : q = r := by simpa using hq2
        subst hqr
        exact (any_key_iff acc (key q)).mp hany
  · have hanyf : acc.any (fun p => p.1 == key r) = false :=
      Bool.eq_false_iff.mpr hany
    have hknotin : key r ∉ acc.map Prod.fst := by
      intro hmem
      exact hany ((any_key_iff acc (key r)).mpr hmem)
    refine ⟨?_, ?_, ?_⟩
    · rw [insertRow_keys_new acc (key r) r hanyf]
      rw [List.nodup_append]
      refine ⟨hnd, List.nodup_singleton _, ?_⟩
      intro a ha hb
      have : a = key r := by simpa using hb
      subst this
      exact hknotin ha
    · intro p hp
      unfold insertRow at hp
      rw [if_neg hany] at hp
      rcases List.mem_append.mp hp with hp1 | hp2
      · have hne : (key r == p.1) = false := by
          rw [beq_eq_false_iff_ne]
          intro heq
          apply hknotin
          rw [heq]
          exact List.mem_map_of_mem Prod.fst hp1
        rw [List.filter_append]
        simp only [List.filter_cons, List.filter_nil, hne]
        rw [← hgrp p hp1]
        simp
      · have hpeq : p = (key r, [r]) := by simpa using hp2
        subst hpeq
        have hdone : done.filter (fun q => key q == key r) = [] := by
          rw [List.filter_eq_nil_iff]
          intro q hq
          have hqmem := hcov q hq
          simp only [beq_iff_eq]
          intro heq
          rw [← heq] at hknotin
          exact hknotin hqmem
        rw [List.filter_append, hdone]
        simp [List.filter_cons]
    · intro q hq
      rw [insertRow_keys_new acc (key r) r hanyf]
      rcases List.mem_append.mp hq with hq1 | hq2
      · exact List.mem_append.mpr (Or.inl (hcov q hq1))
      · have hqr : q = r := by simpa using hq2
        subst hqr
        exact List.mem_append.mpr (Or.inr (by simp))

/-- The grouping fold preserves the invariant along any suffix. -/
lemma groupByKey_aux (key : Row → String) :
    ∀ (rows done : List Row) (acc : List (String × List Row)),
      GroupInv key done acc →
      GroupInv key (done ++ rows)
        (rows.foldl (fun a r => insertRow a (key r) r) acc)
  | [], done, acc, h => by simpa using h
  | r :: rs, done, acc, h => by
    have h1 := insertRow_inv key done acc r h
    have h2 := groupByKey_aux key rs (done ++ [r]) _ h1
    simpa [List.append_assoc] using h2

/-- The grouping loop satisfies its invariant on the full results list. -/
lemma groupByKey_inv (key : Row → String) (rows : List Row) :
    GroupInv key rows (groupByKey key rows) := by
  have h0 : GroupInv key [] [] := by
    refine ⟨List.nodup_nil, ?_, ?_⟩
    · intro p hp
      cases hp
    · intro q hq
      cases hq
  have h1 := groupByKey_aux key rows [] [] h0
  simpa [groupByKey] using h1

/-- C3: for a non-empty results list, the coach export partitions the
records by each record's own `league` field (missing/empty mapped to
`'Unknown League'`): the group keys are pairwise distinct (so a record
lands in exactly one worksheet, the one for its own key), each worksheet's
records are exactly the results carrying that key in their original
relative order (`filter` — so placement depends only on the record's field,
not its position), every record's key has a worksheet, and the workbook is
these groups in order. -/
theorem exportPartition (rows : List Row) (h : rows ≠ [])
    (p : String × List Row) (hp : p ∈ groupByKey coachGroupKey_v1 rows)
    (r : Row) (hr : r ∈ rows) :
    ((groupByKey coachGroupKey_v1 rows).map Prod.fst).Nodup
    ∧ p.2 = rows.filter (fun q => coachGroupKey_v1 q == p.1)
    ∧ coachGroupKey_v1 r ∈ (groupByKey coachGroupKey_v1 rows).map Prod.fst
    ∧ exportToExcel_v1 Tab.coaches rows []
      = some ((groupByKey coachGroupKey_v1 rows).map fun g =>
          (sanitizeSheetName g.1, coachHeaders :: g.2.map coachRowCells)) := by
  obtain ⟨hnd, hgrp, hcov⟩ := groupByKey_inv coachGroupKey_v1 rows
  refine ⟨hnd, hgrp p hp, hcov r hr, ?_⟩
  have hne : rows.isEmpty = false := by
    cases rows with
    | nil => exact absurd rfl h
    | cons a l => rfl
  simp [exportToExcel_v1, buildSheets, hne]

/-- C3 (witness): the partition facts instantiated at a one-record results
list, whose single worksheet is `'Unknown League'`. -/
theorem exportPartition_witness :
    ((groupByKey coachGroupKey_v1 [emptyRow]).map Prod.fst).Nodup
    ∧ (("Unknown League", [emptyRow]) : String × List Row).2
      = [emptyRow].filter
          (fun q => coachGroupKey_v1 q
            == (("Unknown League", [emptyRow]) : String × List Row).1)
    ∧ coachGroupKey_v1 emptyRow ∈ (groupByKey coachGroupKey_v1 [emptyRow]).map Prod.fst
    ∧ exportToExcel_v1 Tab.coaches [emptyRow] []
      = some ((groupByKey coachGroupKey_v1 [emptyRow]).map fun g =>
          (sanitizeSheetName g.1, coachHeaders :: g.2.map coachRowCells)) :=
  exportPartition [emptyRow] (by decide) ("Unknown League", [emptyRow]) (by decide)
    emptyRow (by decide)

/-! ### `startScraper` resolution lemmas -/

/-- On the coaches tab the selection fallthrough follows the
clubs → leagues → continent → default priority chain. -/
lemma coachSelection_priority (s : ClientState) (h : s.activeTab = Tab.coaches) :
    coachSelectionRequests s
      = if s.selectedClubs ≠ [] then [clubsRequest s]
        else if s.selectedLeagues ≠ [] then
          (if resolvedLeagues s ≠ [] then [leaguesRequest s] else [])
        else if s.selectedContinent ≠ "" then [continentRequest s]
        else [defaultRequest s] := by
  rcases hc : s.selectedClubs with _ | ⟨c, _ | ⟨c2, cs⟩⟩
  · by_cases hL : s.selectedLeagues ≠ []
    · rcases hr : resolvedLeagues s with _ | ⟨l, _ | ⟨l2, ls⟩⟩ <;>
        simp [coachSelectionRequests, hc, hL, hr, leaguesRequest, h]
    · by_cases hC : s.selectedContinent ≠ "" <;>
        simp [coachSelectionRequests, hc, hL, hC, continentRequest, defaultRequest, h]
  · simp [coachSelectionRequests, hc, clubsRequest, h]
  · simp [coachSelectionRequests, hc, clubsRequest, h]

/-- On the players tab the selection fallthrough follows the same priority
chain. -/
lemma playerSelection_priority (s : ClientState) (h : s.activeTab = Tab.players) :
    playerSelectionRequests s
      = if s.selectedClubs ≠ [] then [clubsRequest s]
        else if s.selectedLeagues ≠ [] then
          (if resolvedLeagues s ≠ [] then [leaguesRequest s] else [])
        else if s.selectedContinent ≠ "" then [continentRequest s]
        else [defaultRequest s] := by
  rcases hc : s.selectedClubs with _ | ⟨c, _ | ⟨c2, cs⟩⟩
  · by_cases hL : s.selectedLeagues ≠ []
    · rcases hr : resolvedLeagues s with _ | ⟨l, _ | ⟨l2, ls⟩⟩ <;>
        simp [playerSelectionRequests, hc, hL, hr, leaguesRequest, h]
    · by_cases hC : s.selectedContinent ≠ "" <;>
        simp [playerSelectionRequests, hc, hL, hC, continentRequest, defaultRequest, h]
  · simp [playerSelectionRequests, hc, clubsRequest, h]
  · simp [playerSelectionRequests, hc, clubsRequest, h]

/-- The priority chain issues at most one request, and none exactly in the
unresolvable-leagues corner. -/
lemma priorityRequest_spec (s : ClientState) :
    (priorityRequest s).length ≤ 1 ∧ (priorityRequest s).isEmpty = noStartB s := by
  unfold priorityRequest noStartB
  split_ifs <;> simp_all

/-- C1 (amended): `startScraper` issues at most one start request, and its
selection follows the fixed priority entity URL → clubs → leagues →
continent → default full run (`priorityRequest`); it issues zero requests
exactly in the corner where no entity URL is active, no clubs are selected,
and leagues are selected but none resolves (`noStartB`), and exactly one
request otherwise. -/
theorem startScraper_resolution (s : ClientState) :
    startScraperRequests s = priorityRequest s
    ∧ (startScraperRequests s).length ≤ 1
    ∧ (startScraperRequests s).isEmpty = noStartB s := by
  have hmain : startScraperRequests s = priorityRequest s := by
    cases ht : s.activeTab with
    | coaches =>
      have hreq : startScraperRequests s = coachRequests s := by
        simp [startScraperRequests, ht]
      rw [hreq]
      by_cases hE : s.coachEntityType ≠ "" ∧ s.coachEntityId ≠ ""
          ∧ s.coachEntityId.trim ≠ ""
      · by_cases hm : s.coachEntityType = "manager"
        · have hact : entityActiveB s = true := by
            simp [entityActiveB, ht, hE.1, hE.2.1, hE.2.2, hm]
          unfold priorityRequest coachRequests
          rw [if_pos hact, if_pos hE, if_pos hm]
          simp [entityRequest, ht, hm]
        · by_cases hl : s.coachEntityType = "league"
          · have hact : entityActiveB s = true := by
              simp [entityActiveB, ht, hE.1, hE.2.1, hE.2.2, hl]
            unfold priorityRequest coachRequests
            rw [if_pos hact, if_pos hE, if_neg hm, if_pos hl]
            simp [entityRequest, ht, hm]
          · have hact : entityActiveB s = false := by
              simp [entityActiveB, ht, hm, hl]
            have hneg : ¬(entityActiveB s = true) := by simp [hact]
            unfold priorityRequest coachRequests
            rw [if_pos hE, if_neg hm, if_neg hl, if_neg hneg]
            exact coachSelection_priority s ht
      · have hact : entityActiveB s = false := by
          simp only [entityActiveB, ht]
          rw [Bool.and_eq_false_iff]
          left
          rw [Bool.and_eq_false_iff]
          by_cases h1 : s.coachEntityType = ""
          · left
            rw [Bool.and_eq_false_iff]
            left
            simp [h1]
          · by_cases h2 : s.coachEntityId = ""
            · left
              rw [Bool.and_eq_false_iff]
              right
              simp [h2]
            · right
              have h3 : ¬s.coachEntityId.trim ≠ "" := fun hx => hE ⟨h1, h2, hx⟩
              simp [h3]
        have hneg : ¬(entityActiveB s = true) := by simp [hact]
        unfold priorityRequest coachRequests
        rw [if_neg hE, if_neg hneg]
        exact coachSelection_priority s ht
    | players =>
      have hreq : startScraperRequests s = playerRequests s := by
        simp [startScraperRequests, ht]
      rw [hreq]
      by_cases hE : s.playerEntityType ≠ "" ∧ s.playerEntityId ≠ ""
          ∧ s.playerEntityId.trim ≠ ""
      · by_cases hm : s.playerEntityType = "league"
        · have hact : entityActiveB s = true := by
            simp [entityActiveB, ht, hE.1, hE.2.1, hE.2.2, hm]
          unfold priorityRequest playerRequests
          rw [if_pos hact, if_pos hE, if_pos hm]
          simp [entityRequest, ht, hm]
        · by_cases hl : s.playerEntityType = "club"
          · have hact : entityActiveB s = true := by
              simp [entityActiveB, ht, hE.1, hE.2.1, hE.2.2, hl]
            unfold priorityRequest playerRequests
            rw [if_pos hact, if_pos hE, if_neg hm, if_pos hl]
            simp [entityRequest, ht, hm]
          · have hact : entityActiveB s = false := by
              simp [entityActiveB, ht, hm, hl]
            have hneg : ¬(entityActiveB s = true) := by simp [hact]
            unfold priorityRequest playerRequests
            rw [if_pos hE, if_neg hm, if_neg hl, if_neg hneg]
            exact playerSelection_priority s ht
      · have hact : entityActiveB s = false := by
          simp only [entityActiveB, ht]
          rw [Bool.and_eq_false_iff]
          left
          rw [Bool.and_eq_false_iff]
          by_cases h1 : s.playerEntityType = ""
          · left
            rw [Bool.and_eq_false_iff]
            left
            simp [h1]
          · by_cases h2 : s.playerEntityId = ""
            · left
              rw [Bool.and_eq_false_iff]
              right
              simp [h2]
            · right
              have h3 : ¬s.playerEntityId.trim ≠ "" := fun hx => hE ⟨h1, h2, hx⟩
              simp [h3]
        have hneg : ¬(entityActiveB s = true) := by simp [hact]
        unfold priorityRequest playerRequests
        rw [if_neg hE, if_neg hneg]
        exact playerSelection_priority s ht
  obtain ⟨hlen, hempty⟩ := priorityRequest_spec s
  exact ⟨hmain, by rw [hmain]; exact hlen, by rw [hmain]; exact hempty⟩

/-- C1 (counterexample): with only a selected league that does not resolve
against the loaded leagues list, `startScraper` posts no start request at
all — not exactly one. -/
theorem startScraper_noRequestOnUnresolvable :
    unresolvableLeagueState.selectedLeagues ≠ []
    ∧ startScraperRequests unresolvableLeagueState = [] := by
  decide
